import Mathlib

/-!
Shallow embedding of the monitoring-attachment core of the
`monitored-constructs` repository:

* `MonitoredConstruct.configureAlarms` — src/lib/aws/monitoredConstruct.ts
  (the same function also appears in src/unnamed/part_001);
* the `NodejsFunction` monitoring helpers (`monitorErrors`, `monitorDuration`,
  `configureAlarmActions`, `configureOkActions`,
  `configureInsufficientDataActions`, `addAlarm`, the constructor's
  option merge and `baseLambdaFunctionOptions`) — src/lib/lambda/nodejsFunction.ts.

JS numbers that carry thresholds, percentages and durations are embedded as
`Rat` (all values the claims touch are exactly representable, and the one
floating-point product the claims exercise, `(80 / 100) * 5`, is exact in
IEEE double as well).  Durations are carried as rational second counts;
CloudWatch alarm thresholds produced by `monitorDuration` are milliseconds,
as in the source (`threshold.toMilliseconds()`).

The CDK collaborators (construct scope, metric factory, `Alarm` construct)
are modelled by their documented contracts: `resource.metric(name, props)`
returns the named metric with `props` overriding per-resource defaults, and
creating a construct whose id already exists in the scope throws
(construct-tree id uniqueness), which the spec's error taxonomy calls
`ConfigurationError`.
-/

namespace MonitoredConstructs

/-- Opaque notification target (`aws_cloudwatch.IAlarmAction`); the core passes
it through unmodified, so a plain label suffices. -/
abbrev IAlarmAction := String

/-- Partial aggregation options (`aws_cloudwatch.MetricOptions`): optional
statistic and optional sampling period (in seconds). -/
structure MetricOptions where
  statistic : Option String := none
  periodSeconds : Option Nat := none
deriving Repr, DecidableEq

/-- A resolved metric: name, aggregation statistic and period in seconds. -/
structure Metric where
  metricName : String
  statistic : String
  periodSeconds : Nat
deriving Repr, DecidableEq

/-- Resolved alarm-creation options as handed to the CDK `createAlarm` /
`new Alarm` call: `aws_cloudwatch.CreateAlarmOptions` with its required
`threshold` and `evaluationPeriods` and optional `alarmDescription`. -/
structure CreateAlarmProps where
  threshold : Rat
  evaluationPeriods : Nat
  alarmDescription : Option String := none
deriving Repr, DecidableEq

/-- Partial alarm-creation options as accepted by the `NodejsFunction`
convenience methods, spread-merged over computed defaults
(`\x7b ... defaults ..., ...createAlarmOptions \x7d` in the source). -/
structure CreateAlarmOptions where
  threshold : Option Rat := none
  evaluationPeriods : Option Nat := none
  alarmDescription : Option String := none
deriving Repr, DecidableEq

/-- The materialized CloudWatch alarm: identity (construct id), bound metric,
resolved numeric configuration, and the three per-state action lists that
`addAlarmAction` / `addOkAction` / `addInsufficientDataAction` append to. -/
structure Alarm where
  id : String
  metric : Metric
  threshold : Rat
  evaluationPeriods : Nat
  alarmDescription : Option String
  alarmActions : List IAlarmAction := []
  okActions : List IAlarmAction := []
  insufficientDataActions : List IAlarmAction := []
deriving Repr, DecidableEq

/-- `alarm.addAlarmAction(...actions)`: appends the given targets to the
alarm-state action list. -/
def Alarm.addAlarmAction (a : Alarm) (actions : List IAlarmAction) : Alarm :=
  { a with alarmActions := a.alarmActions ++ actions }

/-- `alarm.addOkAction(...actions)`: appends the given targets to the
ok-state action list. -/
def Alarm.addOkAction (a : Alarm) (actions : List IAlarmAction) : Alarm :=
  { a with okActions := a.okActions ++ actions }

/-- `alarm.addInsufficientDataAction(...actions)`: appends the given targets
to the insufficient-data-state action list. -/
def Alarm.addInsufficientDataAction (a : Alarm) (actions : List IAlarmAction) : Alarm :=
  { a with insufficientDataActions := a.insufficientDataActions ++ actions }

/-- Body of the inner action loop of `configureAlarms`
(src/lib/aws/monitoredConstruct.ts lines 64-76): three independent string
comparisons of the entry's key against the `AlarmActionType` enum values
`"Alarm"`, `"Ok"`, `"InsufficientData"`; a key matching none of them falls
through all three `if`s. -/
def dispatchAction (a : Alarm) (actionType : String) (action : IAlarmAction) : Alarm :=
  let a1 := if actionType = "Alarm" then a.addAlarmAction [action] else a
  let a2 := if actionType = "Ok" then a1.addOkAction [action] else a1
  let a3 := if actionType = "InsufficientData" then a2.addInsufficientDataAction [action] else a2
  a3

/-- The inner `for (const [actionType, action] of Object.entries(actions))`
loop of `configureAlarms`, folded left over the entries in object order. -/
def dispatchActions (a : Alarm) (actions : List (String × IAlarmAction)) : Alarm :=
  actions.foldl (fun b p => dispatchAction b p.1 p.2) a

/-- One entry of the `Alarms` record (the local `Alarm` type of
monitoredConstruct.ts): optional per-state actions, metric options, and the
`CreateAlarmOptions` forwarded to `createAlarm`. -/
structure AlarmDef where
  actions : Option (List (String × IAlarmAction)) := none
  metricOptions : MetricOptions := {}
  createAlarmOptions : CreateAlarmProps
deriving Repr, DecidableEq

/-- `Alarms = Record<string, Alarm>`: `Object.entries` yields string keys in
insertion order, so the record is embedded as an association list. -/
abbrev Alarms := List (String × AlarmDef)

/-- Modelled collaborator (`ResourceWithMetric`): per the spec's MetricSource
contract, `metric(name, props)` is deterministic and side-effect-free and
applies `props` as an override on top of the resource's per-metric defaults;
the defaults are carried as data. -/
structure ResourceWithMetric where
  baseStatistic : String
  basePeriodSeconds : Nat
deriving Repr, DecidableEq

/-- `resource.metric(metricName, props)`. -/
def ResourceWithMetric.metric (r : ResourceWithMetric) (metricName : String)
    (props : MetricOptions) : Metric :=
  { metricName := metricName,
    statistic := props.statistic.getD r.baseStatistic,
    periodSeconds := props.periodSeconds.getD r.basePeriodSeconds }

/-- Modelled collaborator: the construct scope owning the created alarms.
`childIds` is the construct tree's child-id list; `alarms` the alarms created
in it so far.  Creating a construct under an id already present throws, which
the spec's taxonomy surfaces as `ConfigurationError`. -/
structure Scope where
  childIds : List String := []
  alarms : List Alarm := []
deriving Repr, DecidableEq

/-- `metric.createAlarm(scope, id, options)`: fails on a duplicate construct
id, otherwise materializes the alarm, registers it with the scope and returns
its handle. -/
def Metric.createAlarm (m : Metric) (scope : Scope) (id : String)
    (props : CreateAlarmProps) : Except String (Scope × Alarm) :=
  if scope.childIds.contains id then
    .error ("There is already a Construct with name " ++ id)
  else
    let alarm : Alarm :=
      { id := id, metric := m, threshold := props.threshold,
        evaluationPeriods := props.evaluationPeriods,
        alarmDescription := props.alarmDescription }
    .ok ({ scope with
            childIds := scope.childIds ++ [id],
            alarms := scope.alarms ++ [alarm] }, alarm)

/-- In-place mutation of an alarm already registered in the scope (construct
ids are unique, so updating by id is exact). -/
def Scope.updateAlarm (s : Scope) (id : String) (a : Alarm) : Scope :=
  { s with alarms := s.alarms.map (fun b => if b.id = id then a else b) }

/-- The `for (const [metric, ...] of Object.entries(alarms))` loop of
`MonitoredConstruct.configureAlarms` (src/lib/aws/monitoredConstruct.ts
lines 55-78).  Each entry creates `resource.metric(metric, metricOptions)
.createAlarm(this, metric + "Alarm", createAlarmOptions)`; when the entry has
no `actions` the source executes `break`, ending the whole loop (remaining
entries are not processed); otherwise the inner loop dispatches each action
and the loop continues. -/
def configureAlarmsGo (resource : ResourceWithMetric) (scope : Scope) :
    Alarms → Except String Scope
  | [] => .ok scope
  | (metricName, d) :: rest =>
    match (resource.metric metricName d.metricOptions).createAlarm scope
        (metricName ++ "Alarm") d.createAlarmOptions with
    | .error e => .error e
    | .ok (scope1, alarm) =>
      match d.actions with
      | none => .ok scope1
      | some acts =>
        configureAlarmsGo resource
          (scope1.updateAlarm alarm.id (dispatchActions alarm acts)) rest

/-- `MonitoredConstruct.configureAlarms(resource)`.  The constructor defaults
the `alarms` field to the empty record (`props?.alarms ?? \x7b\x7d`), so the
`if (!alarms) return` guard never fires and the record's entries drive the
loop directly. -/
def configureAlarms (resource : ResourceWithMetric) (alarms : Alarms)
    (scope : Scope) : Except String Scope :=
  configureAlarmsGo resource scope alarms

/-- The `aws_lambda_nodejs.NodejsFunctionProps` fields that
`baseLambdaFunctionOptions` sets; every field is optional, absent fields being
absent keys of the JS object (an explicitly-`undefined` key is out of scope:
no claim exercises one). -/
structure NodejsFunctionProps where
  environment : Option (List (String × String)) := none
  memorySize : Option Nat := none
  tracing : Option String := none
  timeoutSeconds : Option Rat := none
  retryAttempts : Option Nat := none
  reservedConcurrentExecutions : Option Nat := none
  logRetentionDays : Option Nat := none
  insightsVersion : Option String := none
  bundlingExternalModules : Option (List String) := none
deriving Repr, DecidableEq

/-- `NodejsFunction.baseLambdaFunctionOptions`
(src/lib/lambda/nodejsFunction.ts): the static base options, including
`timeout: Duration.seconds(5)`. -/
def baseLambdaFunctionOptions : NodejsFunctionProps :=
  { environment := some [],
    memorySize := some 1024,
    tracing := some "Active",
    timeoutSeconds := some 5,
    retryAttempts := some 2,
    reservedConcurrentExecutions := some 1,
    logRetentionDays := some 7,
    insightsVersion := some "1.0.119.0",
    bundlingExternalModules := some ["aws-sdk"] }

/-- JS object spread `\x7b ...base, ...props \x7d` of the `NodejsFunction`
constructor: for every field, a key present in `props` wins over `base`. -/
def mergeProps (base props : NodejsFunctionProps) : NodejsFunctionProps :=
  { environment := props.environment <|> base.environment,
    memorySize := props.memorySize <|> base.memorySize,
    tracing := props.tracing <|> base.tracing,
    timeoutSeconds := props.timeoutSeconds <|> base.timeoutSeconds,
    retryAttempts := props.retryAttempts <|> base.retryAttempts,
    reservedConcurrentExecutions :=
      props.reservedConcurrentExecutions <|> base.reservedConcurrentExecutions,
    logRetentionDays := props.logRetentionDays <|> base.logRetentionDays,
    insightsVersion := props.insightsVersion <|> base.insightsVersion,
    bundlingExternalModules :=
      props.bundlingExternalModules <|> base.bundlingExternalModules }

/-- The `NodejsFunction` construct state: its name, the merged props (whose
`timeoutSeconds` is `this.timeout`), its construct children's ids, and the
`readonly alarms: Set<aws_cloudwatch.Alarm>` in insertion order. -/
structure NodejsFunction where
  functionName : String
  props : NodejsFunctionProps
  childIds : List String := []
  alarms : List Alarm := []
deriving Repr, DecidableEq

/-- The `NodejsFunction` constructor: `super(scope, id, \x7b ...base, ...props \x7d)`
with `base = baseLambdaFunctionOptions`; the fresh construct has no children
and an empty alarm set. -/
def mkNodejsFunction (functionName : String) (props : NodejsFunctionProps) :
    NodejsFunction :=
  { functionName := functionName,
    props := mergeProps baseLambdaFunctionOptions props }

/-- `this.timeout` of the constructed function. -/
def NodejsFunction.timeoutSeconds (fn : NodejsFunction) : Option Rat :=
  fn.props.timeoutSeconds

/-- `NodejsFunction.addAlarm(id, props)` (private): `new aws_cloudwatch.Alarm
(this, id, props)` — which throws on a duplicate construct id — followed by
`this.alarms.add(alarm)`. -/
def NodejsFunction.addAlarm (fn : NodejsFunction) (id : String) (metric : Metric)
    (props : CreateAlarmProps) : Except String (NodejsFunction × Alarm) :=
  if fn.childIds.contains id then
    .error ("There is already a Construct with name " ++ id)
  else
    let alarm : Alarm :=
      { id := id, metric := metric, threshold := props.threshold,
        evaluationPeriods := props.evaluationPeriods,
        alarmDescription := props.alarmDescription }
    .ok ({ fn with
            childIds := fn.childIds ++ [id],
            alarms := fn.alarms ++ [alarm] }, alarm)

/-- `NodejsFunction.configureAlarmActions(...actions)`: for every alarm in the
set, `alarm.addAlarmAction(...actions)`. -/
def NodejsFunction.configureAlarmActions (fn : NodejsFunction)
    (actions : List IAlarmAction) : NodejsFunction :=
  { fn with alarms := fn.alarms.map (fun a => a.addAlarmAction actions) }

/-- `NodejsFunction.configureOkActions(...actions)`: for every alarm in the
set, `alarm.addOkAction(...actions)`. -/
def NodejsFunction.configureOkActions (fn : NodejsFunction)
    (actions : List IAlarmAction) : NodejsFunction :=
  { fn with alarms := fn.alarms.map (fun a => a.addOkAction actions) }

/-- `NodejsFunction.configureInsufficientDataActions(...actions)`: for every
alarm in the set, `alarm.addInsufficientDataAction(...actions)`. -/
def NodejsFunction.configureInsufficientDataActions (fn : NodejsFunction)
    (actions : List IAlarmAction) : NodejsFunction :=
  { fn with alarms := fn.alarms.map (fun a => a.addInsufficientDataAction actions) }

/-- Decimal rendering of the rationals interpolated into alarm descriptions;
on the integral values the claims exercise it agrees with JS number
formatting. -/
def ratStr (q : Rat) : String :=
  if q.den = 1 then toString q.num else toString q.num ++ "/" ++ toString q.den

/-- `NodejsFunction.monitorErrors(errorsPerMinute = 0, metricOptions?,
createAlarmOptions?)`: the errors metric with statistic `"Sum"` and period
one minute overridden by `metricOptions`, then `addAlarm("ErrorsAlarm", ...)`
with threshold `errorsPerMinute`, `evaluationPeriods` 3 and a generated
description, all overridden by `createAlarmOptions`.  JS default arguments
are passed explicitly by callers here (`errorsPerMinute = 0`). -/
def NodejsFunction.monitorErrors (fn : NodejsFunction) (errorsPerMinute : Rat)
    (metricOptions : MetricOptions) (createAlarmOptions : CreateAlarmOptions) :
    Except String (NodejsFunction × Alarm) :=
  let metric : Metric :=
    { metricName := "Errors",
      statistic := metricOptions.statistic.getD "Sum",
      periodSeconds := metricOptions.periodSeconds.getD 60 }
  fn.addAlarm "ErrorsAlarm" metric
    { threshold := createAlarmOptions.threshold.getD errorsPerMinute,
      evaluationPeriods := createAlarmOptions.evaluationPeriods.getD 3,
      alarmDescription := some (createAlarmOptions.alarmDescription.getD
        ("Over " ++ ratStr errorsPerMinute ++ " errors per minute")) }

/-- `NodejsFunction.monitorDuration(timeoutPercent = 80, metricOptions?,
createAlarmOptions?)`: throws `timeout not configured for <name>` when
`this.timeout` is absent, before anything else; otherwise resolves
`threshold = Duration.seconds((timeoutPercent / 100) * timeout.toSeconds())`,
builds the duration metric with statistic `"p99"` and period one minute
overridden by `metricOptions`, and calls `addAlarm("DurationAlarm", ...)`
with the threshold in milliseconds (`threshold.toMilliseconds()`),
`evaluationPeriods` 3 and a generated description, all overridden by
`createAlarmOptions`. -/
def NodejsFunction.monitorDuration (fn : NodejsFunction) (timeoutPercent : Rat)
    (metricOptions : MetricOptions) (createAlarmOptions : CreateAlarmOptions) :
    Except String (NodejsFunction × Alarm) :=
  match fn.props.timeoutSeconds with
  | none => .error ("timeout not configured for " ++ fn.functionName)
  | some t =>
    let thresholdSeconds : Rat := timeoutPercent / 100 * t
    let metric : Metric :=
      { metricName := "Duration",
        statistic := metricOptions.statistic.getD "p99",
        periodSeconds := metricOptions.periodSeconds.getD 60 }
    fn.addAlarm "DurationAlarm" metric
      { threshold := createAlarmOptions.threshold.getD (thresholdSeconds * 1000),
        evaluationPeriods := createAlarmOptions.evaluationPeriods.getD 3,
        alarmDescription := some (createAlarmOptions.alarmDescription.getD
          ("p99 latency >= " ++ ratStr thresholdSeconds ++ "s (" ++
            ratStr timeoutPercent ++ "% of " ++ ratStr t ++ ")")) }

/-! ### Concrete instances used by scenario theorems and witnesses -/

/-- A resource whose per-metric defaults are the sum statistic over one
minute (the defaults the lambda wrapper also uses for count metrics). -/
def r0 : ResourceWithMetric := { baseStatistic := "Sum", basePeriodSeconds := 60 }

/-- An alarm declaration entry with no `actions` field. -/
def dNoActions : AlarmDef :=
  { createAlarmOptions := { threshold := 1, evaluationPeriods := 1 } }

/-- An alarm declaration entry with actions for two known state kinds and one
unknown state kind. -/
def dWithActions : AlarmDef :=
  { actions := some [("Alarm", "targetA"), ("Ok", "targetB"), ("Weird", "targetC")],
    createAlarmOptions := { threshold := 2, evaluationPeriods := 2 } }

/-- A `NodejsFunction` constructed with empty props: every option comes from
`baseLambdaFunctionOptions`. -/
def fn0 : NodejsFunction := mkNodejsFunction "fn" {}

/-- The alarm `fn0.monitorErrors 0 \x7b\x7d \x7b\x7d` creates. -/
def errAlarm0 : Alarm :=
  { id := "ErrorsAlarm",
    metric := { metricName := "Errors", statistic := "Sum", periodSeconds := 60 },
    threshold := 0, evaluationPeriods := 3,
    alarmDescription := some "Over 0 errors per minute" }

/-- `fn0` after `monitorErrors 0 \x7b\x7d \x7b\x7d` has run once. -/
def fn0e : NodejsFunction :=
  { fn0 with childIds := ["ErrorsAlarm"], alarms := [errAlarm0] }

/-- A function state whose merged props carry no timeout. -/
def fnNoTimeout : NodejsFunction := { functionName := "f", props := {} }

/-! ### Helper lemmas -/

theorem orElse_eq_if {α : Type} (o b : Option α) :
    (o <|> b) = if o.isSome then o else b := by
  cases o <;> rfl

theorem dispatchAction_alarmActions (a : Alarm) (t : String) (x : IAlarmAction) :
    (dispatchAction a t x).alarmActions =
      a.alarmActions ++ if t = "Alarm" then [x] else [] := by
  unfold dispatchAction Alarm.addAlarmAction Alarm.addOkAction
    Alarm.addInsufficientDataAction
  by_cases h1 : t = "Alarm" <;> by_cases h2 : t = "Ok" <;>
    by_cases h3 : t = "InsufficientData" <;> simp [h1, h2, h3]

theorem dispatchAction_okActions (a : Alarm) (t : String) (x : IAlarmAction) :
    (dispatchAction a t x).okActions =
      a.okActions ++ if t = "Ok" then [x] else [] := by
  unfold dispatchAction Alarm.addAlarmAction Alarm.addOkAction
    Alarm.addInsufficientDataAction
  by_cases h1 : t = "Alarm" <;> by_cases h2 : t = "Ok" <;>
    by_cases h3 : t = "InsufficientData" <;> simp [h1, h2, h3]

theorem dispatchAction_insufficientDataActions (a : Alarm) (t : String)
    (x : IAlarmAction) :
    (dispatchAction a t x).insufficientDataActions =
      a.insufficientDataActions ++ if t = "InsufficientData" then [x] else [] := by
  unfold dispatchAction Alarm.addAlarmAction Alarm.addOkAction
    Alarm.addInsufficientDataAction
  by_cases h1 : t = "Alarm" <;> by_cases h2 : t = "Ok" <;>
    by_cases h3 : t = "InsufficientData" <;> simp [h1, h2, h3]

theorem dispatchAction_config (a : Alarm) (t : String) (x : IAlarmAction) :
    (dispatchAction a t x).id = a.id ∧
    (dispatchAction a t x).metric = a.metric ∧
    (dispatchAction a t x).threshold = a.threshold ∧
    (dispatchAction a t x).evaluationPeriods = a.evaluationPeriods ∧
    (dispatchAction a t x).alarmDescription = a.alarmDescription := by
  unfold dispatchAction Alarm.addAlarmAction Alarm.addOkAction
    Alarm.addInsufficientDataAction
  by_cases h1 : t = "Alarm" <;> by_cases h2 : t = "Ok" <;>
    by_cases h3 : t = "InsufficientData" <;> simp [h1, h2, h3]

/-! ### Claim theorems -/

/-- C1: the claim says `configureAlarms` creates one alarm per distinct
metric-name key regardless of whether individual entries declare actions.
On the two-key mapping `[("A", no actions), ("B", no actions)]` the code's
`break` on a missing `actions` field ends the whole loop after the first
entry, so only one alarm exists afterwards although the mapping has two
keys. -/
theorem configureAlarms_two_keys_one_alarm :
    (configureAlarms r0 [("A", dNoActions), ("B", dNoActions)] {}).map
        (fun s => s.alarms.length) = .ok 1 ∧
    ([("A", dNoActions), ("B", dNoActions)] : Alarms).length = 2 :=
  ⟨rfl, rfl⟩

/-- C2: the claim says an entry without `actions` still gets its alarm, no
action-registration call happens for it, no failure occurs, and routing is
skipped only for that alarm.  On `[("A", no actions), ("B", with actions)]`
the first three parts hold (AAlarm exists with empty action lists and the run
returns successfully), but the `break` also suppresses creation of BAlarm and
registration of its declared targets — the skip is not limited to entry A's
alarm. -/
theorem configureAlarms_no_actions_breaks_loop :
    (configureAlarms r0 [("A", dNoActions), ("B", dWithActions)] {}).map
        (fun s => (s.alarms.map Alarm.id, s.alarms.map Alarm.alarmActions,
          s.alarms.map Alarm.okActions)) =
      .ok (["AAlarm"], [[]], [[]]) :=
  rfl

/-- C3: declaring only a threshold of 5 for the `Errors` metric (the partial
options are spread over the computed defaults of `monitorErrors`) yields
exactly one alarm named `ErrorsAlarm` with threshold 5, evaluationPeriods 3,
statistic "Sum" and a one-minute (60 s) period. -/
theorem monitorErrors_threshold_five_scenario :
    (fn0.monitorErrors 0 {} { threshold := some 5 }).map
        (fun p => p.1.alarms.map (fun a =>
          (a.id, a.threshold, a.evaluationPeriods, a.metric.statistic,
            a.metric.periodSeconds))) =
      .ok [("ErrorsAlarm", (5 : Rat), 3, "Sum", 60)] :=
  rfl

/-- C4: once `monitorErrors` has created its alarm — whose identity is the
deterministic construct id `ErrorsAlarm` — a second attachment attempt for
the same metric on the same instance fails with the duplicate-construct
error and produces no replacement or duplicate: the first call's state keeps
exactly the one appended alarm and the second call returns no state. -/
theorem monitorErrors_duplicate_fails (fn fn1 : NodejsFunction) (a : Alarm)
    (e1 e2 : Rat) (mo1 mo2 : MetricOptions) (co1 co2 : CreateAlarmOptions)
    (h : fn.monitorErrors e1 mo1 co1 = .ok (fn1, a)) :
    a.id = "ErrorsAlarm" ∧
    fn1.alarms = fn.alarms ++ [a] ∧
    fn1.monitorErrors e2 mo2 co2 =
      .error ("There is already a Construct with name " ++ "ErrorsAlarm") := by
  unfold NodejsFunction.monitorErrors NodejsFunction.addAlarm at h ⊢
  by_cases hc : fn.childIds.contains "ErrorsAlarm" = true
  · rw [if_pos hc] at h
    exact Except.noConfusion h
  · rw [if_neg hc] at h
    simp only [Except.ok.injEq, Prod.mk.injEq] at h
    obtain ⟨h1, h2⟩ := h
    subst h1
    subst h2
    simp

/-- Witness for C4 at the concrete fresh function `fn0`. -/
theorem monitorErrors_duplicate_fails_witness :
    errAlarm0.id = "ErrorsAlarm" ∧
    fn0e.alarms = fn0.alarms ++ [errAlarm0] ∧
    fn0e.monitorErrors 1 {} {} =
      .error ("There is already a Construct with name " ++ "ErrorsAlarm") :=
  monitorErrors_duplicate_fails fn0 fn0e errAlarm0 0 1 {} {} {} {} rfl

/-- C5: when the function has no configured timeout, `monitorDuration` fails
with the timeout-not-configured error whatever the percentage, metric options
and alarm options are; the error return carries no state, so no alarm has
been created. -/
theorem monitorDuration_no_timeout_fails (fn : NodejsFunction)
    (timeoutPercent : Rat) (mo : MetricOptions) (co : CreateAlarmOptions)
    (h : fn.props.timeoutSeconds = none) :
    fn.monitorDuration timeoutPercent mo co =
      .error ("timeout not configured for " ++ fn.functionName) := by
  unfold NodejsFunction.monitorDuration
  rw [h]

/-- Witness for C5 at a concrete function state with no timeout. -/
theorem monitorDuration_no_timeout_fails_witness :
    fnNoTimeout.props.timeoutSeconds = none ∧
    fnNoTimeout.monitorDuration 80 {} {} =
      .error ("timeout not configured for " ++ "f") :=
  ⟨rfl, monitorDuration_no_timeout_fails fnNoTimeout 80 {} {} rfl⟩

/-- C6: on a function whose configured timeout is 5 seconds,
`monitorDuration 80` (percent, metric and alarm options at their JS
defaults) resolves the created alarm's threshold to 4 seconds — carried, as
in the source, in milliseconds: `4 * 1000`.  The threshold is an input of
the alarm construction, so its resolution precedes the alarm's creation. -/
theorem monitorDuration_eighty_percent_of_five (fn : NodejsFunction)
    (h : fn.props.timeoutSeconds = some 5)
    (hdup : fn.childIds.contains "DurationAlarm" = false) :
    (fn.monitorDuration 80 {} {}).map (fun p => p.2.threshold) =
      .ok (4 * 1000) := by
  have hmem : "DurationAlarm" ∉ fn.childIds := by simpa using hdup
  unfold NodejsFunction.monitorDuration NodejsFunction.addAlarm
  rw [h]
  simp [hmem]
  simp only [Except.map, Except.ok.injEq]
  norm_num

/-- Witness for C6 at the concrete fresh function `fn0`, whose merged
timeout is the base 5 seconds. -/
theorem monitorDuration_eighty_percent_of_five_witness :
    fn0.props.timeoutSeconds = some 5 ∧
    fn0.childIds.contains "DurationAlarm" = false ∧
    (fn0.monitorDuration 80 {} {}).map (fun p => p.2.threshold) =
      .ok (4 * 1000) :=
  ⟨rfl, rfl, monitorDuration_eighty_percent_of_five fn0 rfl rfl⟩

/-- C7: `monitorErrors` with every argument at its JS default (0 errors per
minute, no option overrides) creates an alarm with threshold 0 and
evaluationPeriods 3, and the generated description `Over 0 errors per
minute` contains the literal threshold text `0`. -/
theorem monitorErrors_default_args (fn : NodejsFunction)
    (h : fn.childIds.contains "ErrorsAlarm" = false) :
    (fn.monitorErrors 0 {} {}).map
        (fun p => (p.2.threshold, p.2.evaluationPeriods, p.2.alarmDescription)) =
      .ok (0, 3, some "Over 0 errors per minute") ∧
    List.IsInfix "0".toList "Over 0 errors per minute".toList := by
  constructor
  · have hmem : "ErrorsAlarm" ∉ fn.childIds := by simpa using h
    unfold NodejsFunction.monitorErrors NodejsFunction.addAlarm
    simp [hmem]
    rfl
  · decide

/-- Witness for C7 at the concrete fresh function `fn0`. -/
theorem monitorErrors_default_args_witness :
    fn0.childIds.contains "ErrorsAlarm" = false ∧
    ((fn0.monitorErrors 0 {} {}).map
        (fun p => (p.2.threshold, p.2.evaluationPeriods, p.2.alarmDescription)) =
      .ok (0, 3, some "Over 0 errors per minute") ∧
    List.IsInfix "0".toList "Over 0 errors per minute".toList) :=
  ⟨rfl, monitorErrors_default_args fn0 rfl⟩

/-- C8: the action loop routes every entry exactly by its state kind —
the alarm list receives precisely the `"Alarm"`-keyed targets, the ok list
precisely the `"Ok"`-keyed ones, the insufficient-data list precisely the
`"InsufficientData"`-keyed ones, with no cross-registration — while entries
with any other kind are ignored (the function is total: no error) and the
alarm's identity and resolved configuration are untouched. -/
theorem dispatchActions_routing (a : Alarm) (acts : List (String × IAlarmAction)) :
    (dispatchActions a acts).alarmActions =
      a.alarmActions ++ (acts.filter (fun p => p.1 = "Alarm")).map Prod.snd ∧
    (dispatchActions a acts).okActions =
      a.okActions ++ (acts.filter (fun p => p.1 = "Ok")).map Prod.snd ∧
    (dispatchActions a acts).insufficientDataActions =
      a.insufficientDataActions ++
        (acts.filter (fun p => p.1 = "InsufficientData")).map Prod.snd ∧
    (dispatchActions a acts).id = a.id ∧
    (dispatchActions a acts).metric = a.metric ∧
    (dispatchActions a acts).threshold = a.threshold ∧
    (dispatchActions a acts).evaluationPeriods = a.evaluationPeriods ∧
    (dispatchActions a acts).alarmDescription = a.alarmDescription := by
  induction acts generalizing a with
  | nil => simp [dispatchActions]
  | cons p rest ih =>
    obtain ⟨t, x⟩ := p
    have hstep : dispatchActions a ((t, x) :: rest) =
        dispatchActions (dispatchAction a t x) rest := rfl
    obtain ⟨i1, i2, i3, i4, i5, i6, i7, i8⟩ := ih (dispatchAction a t x)
    obtain ⟨c1, c2, c3, c4, c5⟩ := dispatchAction_config a t x
    refine ⟨?_, ?_, ?_, ?_, ?_, ?_, ?_, ?_⟩ <;>
      rw [hstep] <;>
      simp [i1, i2, i3, i4, i5, i6, i7, i8, c1, c2, c3, c4, c5,
        dispatchAction_alarmActions, dispatchAction_okActions,
        dispatchAction_insufficientDataActions, List.filter_cons] <;>
      by_cases h : t = "Alarm" <;> by_cases h2 : t = "Ok" <;>
        by_cases h3 : t = "InsufficientData" <;>
        simp [h, h2, h3]

/-- C9: each bulk action-routing call keeps the registry's membership — the
alarm list is the pointwise image that leaves every alarm in place with the
same identity — and only appends the given targets to that alarm's list for
the routed state kind (the structure update touches no other field, so the
other two action lists are unchanged); two successive calls with different
target lists accumulate both, in order, never removing or replacing earlier
ones. -/
theorem configureActions_additive (fn : NodejsFunction)
    (as bs : List IAlarmAction) :
    (fn.configureAlarmActions as).alarms.map Alarm.id = fn.alarms.map Alarm.id ∧
    (fn.configureOkActions as).alarms.map Alarm.id = fn.alarms.map Alarm.id ∧
    (fn.configureInsufficientDataActions as).alarms.map Alarm.id =
      fn.alarms.map Alarm.id ∧
    (fn.configureAlarmActions as).alarms =
      fn.alarms.map (fun a => { a with alarmActions := a.alarmActions ++ as }) ∧
    (fn.configureOkActions as).alarms =
      fn.alarms.map (fun a => { a with okActions := a.okActions ++ as }) ∧
    (fn.configureInsufficientDataActions as).alarms =
      fn.alarms.map (fun a =>
        { a with insufficientDataActions := a.insufficientDataActions ++ as }) ∧
    ((fn.configureAlarmActions as).configureAlarmActions bs).alarms =
      fn.alarms.map (fun a =>
        { a with alarmActions := a.alarmActions ++ (as ++ bs) }) ∧
    ((fn.configureOkActions as).configureOkActions bs).alarms =
      fn.alarms.map (fun a => { a with okActions := a.okActions ++ (as ++ bs) }) ∧
    ((fn.configureInsufficientDataActions as).configureInsufficientDataActions
        bs).alarms =
      fn.alarms.map (fun a =>
        { a with insufficientDataActions :=
            a.insufficientDataActions ++ (as ++ bs) }) := by
  refine ⟨?_, ?_, ?_, ?_, ?_, ?_, ?_, ?_, ?_⟩ <;>
    simp [NodejsFunction.configureAlarmActions, NodejsFunction.configureOkActions,
      NodejsFunction.configureInsufficientDataActions, Alarm.addAlarmAction,
      Alarm.addOkAction, Alarm.addInsufficientDataAction, List.map_map,
      Function.comp, List.append_assoc]

/-- C10: the constructor's option merge gives the caller-supplied props
precedence over `baseLambdaFunctionOptions` on every field, the base filling
exactly the fields the caller omits; in particular a function constructed
without an explicit timeout carries the base 5-second timeout, so
`monitorDuration` on a fresh such function succeeds for any arguments (it
never hits the missing-timeout error). -/
theorem nodejsFunction_props_merge (nm : String) (props : NodejsFunctionProps) :
    (mkNodejsFunction nm props).props.environment =
      (if props.environment.isSome then props.environment else some []) ∧
    (mkNodejsFunction nm props).props.memorySize =
      (if props.memorySize.isSome then props.memorySize else some 1024) ∧
    (mkNodejsFunction nm props).props.tracing =
      (if props.tracing.isSome then props.tracing else some "Active") ∧
    (mkNodejsFunction nm props).props.timeoutSeconds =
      (if props.timeoutSeconds.isSome then props.timeoutSeconds else some 5) ∧
    (mkNodejsFunction nm props).props.retryAttempts =
      (if props.retryAttempts.isSome then props.retryAttempts else some 2) ∧
    (mkNodejsFunction nm props).props.reservedConcurrentExecutions =
      (if props.reservedConcurrentExecutions.isSome then
        props.reservedConcurrentExecutions else some 1) ∧
    (mkNodejsFunction nm props).props.logRetentionDays =
      (if props.logRetentionDays.isSome then props.logRetentionDays else some 7) ∧
    (mkNodejsFunction nm props).props.insightsVersion =
      (if props.insightsVersion.isSome then props.insightsVersion
        else some "1.0.119.0") ∧
    (mkNodejsFunction nm props).props.bundlingExternalModules =
      (if props.bundlingExternalModules.isSome then props.bundlingExternalModules
        else some ["aws-sdk"]) ∧
    (props.timeoutSeconds = none →
      (mkNodejsFunction nm props).props.timeoutSeconds = some 5 ∧
      ∀ (timeoutPercent : Rat) (mo : MetricOptions) (co : CreateAlarmOptions),
        ∃ r, (mkNodejsFunction nm props).monitorDuration timeoutPercent mo co =
          .ok r) := by
  refine ⟨?_, ?_, ?_, ?_, ?_, ?_, ?_, ?_, ?_, ?_⟩ <;>
    simp only [mkNodejsFunction, mergeProps, baseLambdaFunctionOptions,
      orElse_eq_if]
  intro ht
  rw [ht]
  refine ⟨rfl, fun timeoutPercent mo co => ?_⟩
  exact ⟨_, rfl⟩

/-- Witness for C10 at empty caller props: the merged timeout is the base
5 seconds and `monitorDuration` succeeds on the fresh function. -/
theorem nodejsFunction_props_merge_witness :
    (({} : NodejsFunctionProps).timeoutSeconds = none) ∧
    ((mkNodejsFunction "fn" {}).props.timeoutSeconds = some 5 ∧
      ∀ (timeoutPercent : Rat) (mo : MetricOptions) (co : CreateAlarmOptions),
        ∃ r, (mkNodejsFunction "fn" {}).monitorDuration timeoutPercent mo co =
          .ok r) :=
  ⟨rfl, (nodejsFunction_props_merge "fn" {}).2.2.2.2.2.2.2.2.2 rfl⟩

end MonitoredConstructs
